import Mathlib

/-!
Shallow embedding of the per-account session and event-routing engine of
mautrix-twitter (`src/mautrix_twitter/user.py`), covering connection
lifecycle (`try_connect`, `locked_connect`, `stop`, `logout`), the
disconnect handler and intentional-stop flag, polling-error handling
(`on_error`, `send_bridge_notice`), the initial-sync room-creation budget
(`sync`, `handle_conversation_update`), reaction handling
(`handle_reaction`), and the dual-keyed user cache (`get_by_twid`).

Collaborator calls that only perform external side effects (metrics,
logging, Matrix intents, puppet updates) are represented as emitted
actions or omitted where no claim observes them.
-/

namespace TwitterBridge

/-- Health states pushed to the bridge-state sink (`BridgeStateEvent`). -/
inductive BridgeStateEvent where
  | CONNECTED
  | BAD_CREDENTIALS
  | TRANSIENT_DISCONNECT
  | UNKNOWN_ERROR
  | BACKFILLING
  deriving DecidableEq, Repr

/-- A single `push_bridge_state` call: the state event plus the optional
`error` code and optional `message` arguments. -/
structure Push where
  event : BridgeStateEvent
  error : Option String
  message : Option String
  deriving DecidableEq, Repr

/-- Exceptions that `_connect()` may raise, as caught by `try_connect`:
`TwitterAuthError` (a subclass of `TwitterError`), other `TwitterError`s,
and arbitrary other exceptions. -/
inductive TwError where
  | authError (message : String)
  | twitterError (message : String)
  | otherError
  deriving DecidableEq, Repr

/-- Model of `User.try_connect`: runs `_connect()` (whose outcome is the argument)
and converts every exception into a health-state push.  The result is in
`Except TwError _` to mirror the caller-visible behaviour: the `.ok`
constructor in every branch is the fact that no exception escapes. -/
def try_connect (connectResult : Except TwError Unit) : Except TwError (List Push) :=
  match connectResult with
  | .ok _ => .ok []
  | .error (.authError m) =>
      .ok [⟨.BAD_CREDENTIALS, some "twitter-auth-error", some m⟩]
  | .error (.twitterError m) =>
      .ok [⟨.UNKNOWN_ERROR, some "twitter-unknown-error", some m⟩]
  | .error .otherError =>
      .ok [⟨.UNKNOWN_ERROR, some "twitter-connection-failed", none⟩]

/-- Runtime connection-related state of a `User` session used by `stop`
and `on_disconnect`: whether a client is attached, the `_connected` flag
and the `_intentional_stop` flag. -/
structure SessionConn where
  hasClient : Bool
  connected : Bool
  intentionalStop : Bool
  deriving DecidableEq, Repr

/-- Model of `User.stop`: if a client is attached, sets `_intentional_stop` and
stops polling (the latter is an adapter call with no local state). -/
def stop (s : SessionConn) : SessionConn :=
  if s.hasClient then { s with intentionalStop := true } else s

/-- Model of `User.on_disconnect`: clears `_connected`; if the event is a
`PollingStopped` (`stopped = true`) and the stop was not intentional,
pushes the `twitter-not-connected` unknown-error state; always clears
`_intentional_stop` afterwards. -/
def on_disconnect (s : SessionConn) (stopped : Bool) : SessionConn × List Push :=
  let pushes :=
    if stopped && !s.intentionalStop then
      [Push.mk .UNKNOWN_ERROR (some "twitter-not-connected") none]
    else []
  ({ s with connected := false, intentionalStop := false }, pushes)

/-- Events affecting the disconnect state machine: a local `stop()` call,
and the adapter-reported `PollingStopped` and `PollingErrored` events
(both dispatched to `on_disconnect`; `PollingErrored` additionally goes
to `on_error`, modelled separately). -/
inductive ConnEvt where
  | stopCall
  | pollingStopped
  | pollingErrored
  deriving DecidableEq, Repr

/-- One step of the disconnect state machine, returning the pushes made
by `on_disconnect` (pushes made by `on_error` are modelled separately). -/
def connStep (s : SessionConn) : ConnEvt → SessionConn × List Push
  | .stopCall => (stop s, [])
  | .pollingStopped => on_disconnect s true
  | .pollingErrored => on_disconnect s false

/-- Runs a sequence of connection events, collecting all pushes. -/
def connTrace (s : SessionConn) : List ConnEvt → SessionConn × List Push
  | [] => (s, [])
  | e :: es =>
    let r := connStep s e
    let r' := connTrace r.1 es
    (r'.1, r.2 ++ r'.2)

/-- The `twitter-not-connected` push emitted for an unexpected stop. -/
def notConnectedPush : Push :=
  ⟨.UNKNOWN_ERROR, some "twitter-not-connected", none⟩

/-- State consulted by `User.is_logged_in`: whether `self.client` is set
and the cached tri-state `_is_logged_in`. -/
structure LoginState where
  hasClient : Bool
  isLoggedInCache : Option Bool
  deriving DecidableEq, Repr

/-- Result of an `is_logged_in` call: the returned boolean, the updated
state, and whether a remote identity check (`get_user_identifier`) was
performed. -/
structure LoginResult where
  result : Bool
  state : LoginState
  remoteCheck : Bool
  deriving DecidableEq, Repr

/-- Model of `User.is_logged_in(ignore_cache)`: returns false with no check when no
client is attached; otherwise fills the cache from a remote identity check
(`remote` is its outcome: `.ok b` meaning "identifier is non-null = b",
`.error` an exception, cached as false) only when the cache is null, and
returns the cached value.  The `ignore_cache` parameter is accepted but,
as in the source, never read. -/
def is_logged_in (s : LoginState) (remote : Except Unit Bool) (ignoreCache : Bool) :
    LoginResult :=
  if !s.hasClient then ⟨false, s, false⟩
  else
    match s.isLoggedInCache with
    | some v => ⟨v, s, false⟩
    | none =>
      let v := match remote with
        | .ok b => b
        | .error _ => false
      ⟨v, { s with isLoggedInCache := some v }, true⟩

/-- State consulted by `User.locked_connect`: whether `_connect_task` is
set and not yet done, plus the stored credential pair. -/
structure ConnectGuard where
  taskInFlight : Bool
  authToken : Option String
  csrfToken : Option String
  deriving DecidableEq, Repr

/-- What a `locked_connect` call does. -/
inductive ConnectAction where
  | waitExisting
  | noop
  | startConnect
  deriving DecidableEq, Repr

/-- Model of `User.locked_connect(auth_token, csrf_token)`: if a connect task is in
flight, await it (no new attempt, state unchanged); otherwise, if the
supplied credentials equal the stored ones, warn and do nothing;
otherwise create a fresh `_connect` task and await it. -/
def locked_connect (s : ConnectGuard) (auth csrf : String) :
    ConnectGuard × ConnectAction :=
  if s.taskInFlight then (s, .waitExisting)
  else if s.authToken = some auth && s.csrfToken = some csrf then (s, .noop)
  else ({ s with taskInFlight := true }, .startConnect)

/-- Processes a batch of `locked_connect` calls that all arrive before the
in-flight connect task (if any) completes, collecting each caller's
action in order. -/
def locked_connect_calls (s : ConnectGuard) :
    List (String × String) → ConnectGuard × List ConnectAction
  | [] => (s, [])
  | (a, c) :: rest =>
    let r := locked_connect s a c
    let r' := locked_connect_calls r.1 rest
    (r'.1, r.2 :: r'.2)

/-- Number of fresh connect attempts started in a batch of calls. -/
def countStarts (acts : List ConnectAction) : Nat :=
  (acts.filter (fun a => a = .startConnect)).length

/-- Bridge configuration flags read by `send_bridge_notice` and
`on_error`. -/
structure Config where
  disableBridgeNotices : Bool
  temporaryDisconnectNotices : Bool
  deriving DecidableEq, Repr

/-- Matrix message type of a notice: `TEXT` when `important`, `NOTICE`
otherwise (clients render `NOTICE` messages suppressed/dimmed). -/
inductive MsgType where
  | text
  | notice
  deriving DecidableEq, Repr

/-- Externally observable outputs of the error-handling path: a
bridge-state push or a message sent to the notice room. -/
inductive Action where
  | pushState (p : Push)
  | sendNotice (body : String) (msgtype : MsgType)
  deriving DecidableEq, Repr

/-- Model of `User.send_bridge_notice(text, state_event, important)`: pushes the
given state event (with the text as message) when present, then — unless
`bridge.disable_bridge_notices` is set — sends the text to the notice
room with msgtype `TEXT` if `important` else `NOTICE`. -/
def send_bridge_notice (cfg : Config) (text : String)
    (state_event : Option BridgeStateEvent) (important : Bool) : List Action :=
  (match state_event with
   | some ev => [.pushState ⟨ev, none, some text⟩]
   | none => []) ++
  (if cfg.disableBridgeNotices then []
   else [.sendNotice text (if important then .text else .notice)])

/-- A `PollingErrored` event: whether the poller declared it fatal,
whether the wrapped error is a `TwitterAuthError`, the consecutive error
count, and the error's string rendering. -/
structure PollingErrored where
  fatal : Bool
  isAuthError : Bool
  count : Nat
  errorMessage : String
  deriving DecidableEq, Repr

/-- Model of `User.on_error(evt)`: fatal auth errors push `BAD_CREDENTIALS` and
send an important notice; other fatal errors send an important notice
carrying an `UNKNOWN_ERROR` push; the first transient error sends a
(suppressible) notice carrying `TRANSIENT_DISCONNECT` only when
`bridge.temporary_disconnect_notices` is set; otherwise only a state is
pushed, `TRANSIENT_DISCONNECT` while the count is below 5 and
`UNKNOWN_ERROR` from then on. -/
def on_error (cfg : Config) (evt : PollingErrored) : List Action :=
  if evt.fatal then
    if evt.isAuthError then
      Action.pushState ⟨.BAD_CREDENTIALS, some "twitter-auth-error", some evt.errorMessage⟩ ::
      send_bridge_notice cfg ("Auth error while polling Twitter: " ++ evt.errorMessage)
        none true
    else
      send_bridge_notice cfg ("Fatal error while polling Twitter: " ++ evt.errorMessage)
        (some .UNKNOWN_ERROR) evt.fatal
  else if evt.count = 1 && cfg.temporaryDisconnectNotices then
    send_bridge_notice cfg
      ("Error while polling Twitter: " ++ evt.errorMessage
        ++ "\nThe bridge will keep retrying.")
      (some .TRANSIENT_DISCONNECT) false
  else
    [.pushState ⟨(if evt.count < 5 then .TRANSIENT_DISCONNECT else .UNKNOWN_ERROR),
        some ("Error while polling Twitter: " ++ evt.errorMessage), none⟩]

/-- A conversation as fetched by the sync: its id, the recency timestamp
used for ranking, and the `trusted` flag. -/
structure Conversation where
  conversation_id : String
  sort_timestamp : Int
  trusted : Bool
  deriving DecidableEq, Repr

/-- Portal state visible to the event handlers: the set of conversation
ids whose portal already has a Matrix room (`portal.mxid` set). -/
structure PortalStore where
  rooms : List String
  deriving DecidableEq, Repr

/-- Whether the portal for a conversation id already has a Matrix room. -/
def PortalStore.hasRoom (st : PortalStore) (conv : String) : Bool :=
  st.rooms.contains conv

/-- Observable actions of the sync / conversation-update path. -/
inductive SyncAction where
  | resolvePortal (conv : String)
  | createRoom (conv : String)
  | updateInfo (conv : String)
  | updateUser (twid : Nat)
  deriving DecidableEq, Repr

/-- Model of `User.handle_conversation_update(evt, create_portal)`: resolves the
portal via `Portal.get_by_twid` (registering it in the portal cache);
when the portal has no room, creates one only if `create_portal`; when a
room exists, updates its info.  The low-quality tag/mute side effects on
existing rooms are collaborator intent calls not modelled here. -/
def handle_conversation_update (st : PortalStore) (evt : Conversation)
    (create_portal : Bool) : PortalStore × List SyncAction :=
  let resolved := [SyncAction.resolvePortal evt.conversation_id]
  if !(st.hasRoom evt.conversation_id) then
    if create_portal then
      ({ rooms := evt.conversation_id :: st.rooms },
        resolved ++ [.createRoom evt.conversation_id])
    else (st, resolved)
  else (st, resolved ++ [.updateInfo evt.conversation_id])

/-- Stable insertion of a conversation into a list already sorted by
`sort_timestamp` descending. -/
def insertByTimestamp (c : Conversation) : List Conversation → List Conversation
  | [] => [c]
  | d :: ds =>
    if c.sort_timestamp ≥ d.sort_timestamp then c :: d :: ds
    else d :: insertByTimestamp c ds

/-- Model of `sorted(conversations.values(), key=sort_timestamp, reverse=True)`:
stable sort by recency timestamp, descending. -/
def sortConversations : List Conversation → List Conversation
  | [] => []
  | c :: cs => insertByTimestamp c (sortConversations cs)

/-- The per-conversation loop of `User.sync`: `create_portal` holds when
the running index is below the limit and the conversation is trusted; the
index is incremented whenever `create_portal` holds (before the room
check inside `handle_conversation_update`). -/
def syncConversations (st : PortalStore) (limit index : Int) :
    List Conversation → PortalStore × List SyncAction
  | [] => (st, [])
  | conv :: rest =>
    let create_portal := decide (index < limit) && conv.trusted
    let index' := if create_portal then index + 1 else index
    let r := handle_conversation_update st conv create_portal
    let r' := syncConversations r.1 limit index' rest
    (r'.1, r.2 ++ r'.2)

/-- Model of `User.sync` (after the inbox fetch): handles every fetched user
profile, sorts the conversations by recency descending, replaces a
negative configured limit by the number of conversations, and runs the
budgeted per-conversation loop from index 0. -/
def sync (st : PortalStore) (limitCfg : Int) (users : List Nat)
    (conversations : List Conversation) : PortalStore × List SyncAction :=
  let limit := if limitCfg < 0 then (conversations.length : Int) else limitCfg
  let userActs := users.map SyncAction.updateUser
  let r := syncConversations st limit 0 (sortConversations conversations)
  (r.1, userActs ++ r.2)

/-- The conversation ids for which a room-creation was performed. -/
def createdRooms (acts : List SyncAction) : List String :=
  acts.filterMap (fun a => match a with
    | .createRoom c => some c
    | _ => none)

/-- A reaction event (`ReactionCreateEntry` / `ReactionDeleteEntry`):
conversation id, reacting sender, target message, emoji, and whether it
is a create (add) rather than a delete (remove). -/
structure ReactionEntry where
  conversation_id : String
  sender_id : Nat
  message_id : Nat
  reaction_emoji : String
  isCreate : Bool
  deriving DecidableEq, Repr

/-- Observable actions of `handle_reaction`: resolving the reacting
puppet identity and invoking the add/remove translation. -/
inductive ReactionAction where
  | resolveIdentity (twid : Nat)
  | reactionAdd (message : Nat) (emoji : String)
  | reactionRemove (message : Nat) (emoji : String)
  deriving DecidableEq, Repr

/-- Model of `User.handle_reaction(evt)`: resolves the portal; if it has no Matrix
room, logs and returns (no identity resolution, no translation);
otherwise resolves the reacting puppet and invokes the add or remove
translation. -/
def handle_reaction (st : PortalStore) (evt : ReactionEntry) :
    List ReactionAction :=
  if !(st.hasRoom evt.conversation_id) then []
  else
    .resolveIdentity evt.sender_id ::
    (if evt.isCreate then [.reactionAdd evt.message_id evt.reaction_emoji]
     else [.reactionRemove evt.message_id evt.reaction_emoji])

/-- One account record (`db/user.py` row, also the fields of the runtime
`User` object that `logout` clears). -/
structure UserRecord where
  mxid : String
  twid : Option Nat
  auth_token : Option String
  csrf_token : Option String
  poll_cursor : Option String
  notice_room : Option String
  deriving DecidableEq, Repr

/-- Process-wide user state: the `by_twid` cache (twid → mxid of the
cached `User` object) and the database table (one row per mxid). -/
structure UserStore where
  by_twid : List (Nat × String)
  db : List UserRecord
  deriving DecidableEq, Repr

/-- Model of `User.logout` for the account with the given mxid: removes the
`by_twid` cache entry for the old twid (a missing entry is ignored),
clears `twid`, `poll_cursor`, `auth_token` and `csrf_token`, and persists
the cleared record via `update()`.  The custom-puppet revocation and
metric calls are collaborator side effects not modelled here. -/
def logout (st : UserStore) (mxid : String) : UserStore :=
  match st.db.find? (fun r => r.mxid = mxid) with
  | none => st
  | some u =>
    let cache := match u.twid with
      | some t => st.by_twid.filter (fun p => p.1 ≠ t)
      | none => st.by_twid
    let cleared := { u with
      twid := none, poll_cursor := none, auth_token := none, csrf_token := none }
    { by_twid := cache,
      db := st.db.map (fun r => if r.mxid = mxid then cleared else r) }

/-- Model of `User.get_by_twid(twid)`: first consults the `by_twid` cache and
returns the cached user's record; on a miss, loads from the database row
whose twid matches, registering it in the cache (`_add_to_cache`). -/
def get_by_twid (st : UserStore) (t : Nat) : Option UserRecord × UserStore :=
  match st.by_twid.find? (fun p => p.1 = t) with
  | some p => (st.db.find? (fun r => r.mxid = p.2), st)
  | none =>
    match st.db.find? (fun r => r.twid = some t) with
    | some u => (some u, { st with by_twid := (t, u.mxid) :: st.by_twid })
    | none => (none, st)

/-- While a connect task is in flight, every further `locked_connect`
call waits on it and leaves the guard state unchanged. -/
theorem locked_connect_calls_inflight (s : ConnectGuard) (h : s.taskInFlight = true) :
    ∀ calls : List (String × String),
      (locked_connect_calls s calls).2.all (fun a => a = .waitExisting) = true ∧
      (locked_connect_calls s calls).1 = s := by
  intro calls
  induction calls with
  | nil => exact ⟨rfl, rfl⟩
  | cons p rest ih =>
    obtain ⟨a, c⟩ := p
    simp only [locked_connect_calls, locked_connect, h, if_true]
    obtain ⟨h1, h2⟩ := ih
    refine ⟨?_, h2⟩
    simp only [List.all_cons, h1, Bool.and_true]
    rfl

/-- A batch of calls that all wait starts no connect attempt. -/
theorem countStarts_eq_zero_of_all_wait (l : List ConnectAction)
    (h : l.all (fun a => a = .waitExisting) = true) : countStarts l = 0 := by
  induction l with
  | nil => rfl
  | cons a as ih =>
    simp only [List.all_cons, Bool.and_eq_true, decide_eq_true_eq] at h
    obtain ⟨h1, h2⟩ := h
    subst h1
    simpa [countStarts, List.filter] using ih (by simpa using h2)

/-- C1: `try_connect` never lets an exception escape its boundary: its
result is always `.ok`; a `TwitterAuthError` from `_connect` yields
exactly one `BAD_CREDENTIALS` push, and every other exception yields
exactly one `UNKNOWN_ERROR` push, so callers observe the outcome only
through these health-state pushes. -/
theorem C1_try_connect_boundary (r : Except TwError Unit) :
    (∃ ps, try_connect r = .ok ps) ∧
    (∀ m, r = Except.error (TwError.authError m) →
      try_connect r = .ok [⟨.BAD_CREDENTIALS, some "twitter-auth-error", some m⟩]) ∧
    (∀ e, r = Except.error e → (∀ m, e ≠ TwError.authError m) →
      ∃ p, try_connect r = .ok [p] ∧ p.event = .UNKNOWN_ERROR) := by
  refine ⟨?_, ?_, ?_⟩
  · rcases r with e | _
    · rcases e with m | m | _
      · exact ⟨_, rfl⟩
      · exact ⟨_, rfl⟩
      · exact ⟨_, rfl⟩
    · exact ⟨[], rfl⟩
  · intro m hm
    subst hm
    rfl
  · intro e he hne
    subst he
    rcases e with m | m | _
    · exact absurd rfl (hne m)
    · exact ⟨_, rfl, rfl⟩
    · exact ⟨_, rfl, rfl⟩

/-- Witness for C1 at concrete connect outcomes. -/
theorem C1_try_connect_boundary_witness :
    try_connect (.error (.authError "bad")) =
      .ok [⟨.BAD_CREDENTIALS, some "twitter-auth-error", some "bad"⟩] ∧
    (∃ p, try_connect (.error .otherError) = .ok [p] ∧ p.event = .UNKNOWN_ERROR) :=
  ⟨(C1_try_connect_boundary _).2.1 "bad" rfl,
   (C1_try_connect_boundary _).2.2 _ rfl (fun _ h => TwError.noConfusion h)⟩

/-- C3: a `stop()` call followed by the adapter's `PollingStopped` event
produces no `twitter-not-connected` push (the trace pushes nothing),
while a `PollingStopped` event without a preceding `stop()` (the
intentional-stop flag clear) produces exactly one such push. -/
theorem C3_stop_suppresses_disconnect_push (s : SessionConn) :
    (s.hasClient = true →
      (connTrace s [.stopCall, .pollingStopped]).2 = []) ∧
    (s.intentionalStop = false →
      (connTrace s [.pollingStopped]).2 = [notConnectedPush]) := by
  constructor
  · intro h
    simp [connTrace, connStep, stop, on_disconnect, h]
  · intro h
    simp [connTrace, connStep, on_disconnect, h, notConnectedPush]

/-- Witness for C3 on a connected session with a client attached. -/
theorem C3_stop_suppresses_disconnect_push_witness :
    (connTrace ⟨true, true, false⟩ [.stopCall, .pollingStopped]).2 = [] ∧
    (connTrace ⟨true, true, false⟩ [.pollingStopped]).2 = [notConnectedPush] :=
  ⟨(C3_stop_suppresses_disconnect_push ⟨true, true, false⟩).1 rfl,
   (C3_stop_suppresses_disconnect_push ⟨true, true, false⟩).2 rfl⟩

/-- C9: the intentional-stop flag is one-shot — every event processed by
`on_disconnect` clears it — so when a `PollingErrored` disconnect event
arrives between `stop()` and the adapter's `PollingStopped`, the stopped
event still produces the `twitter-not-connected` push. -/
theorem C9_intentional_stop_one_shot (s : SessionConn) :
    (∀ stopped, (on_disconnect s stopped).1.intentionalStop = false) ∧
    (s.hasClient = true →
      (connTrace s [.stopCall, .pollingErrored, .pollingStopped]).2 =
        [notConnectedPush]) := by
  constructor
  · intro stopped
    rfl
  · intro h
    simp [connTrace, connStep, stop, on_disconnect, h, notConnectedPush]

/-- Witness for C9: on a live session, stop then errored then stopped
yields exactly the unexpected-disconnect push. -/
theorem C9_intentional_stop_one_shot_witness :
    (on_disconnect ⟨true, true, true⟩ true).1.intentionalStop = false ∧
    (connTrace ⟨true, true, false⟩ [.stopCall, .pollingErrored, .pollingStopped]).2 =
      [notConnectedPush] :=
  ⟨(C9_intentional_stop_one_shot ⟨true, true, true⟩).1 true,
   (C9_intentional_stop_one_shot ⟨true, true, false⟩).2 rfl⟩

/-- C10: the `ignore_cache` parameter of `is_logged_in` has no effect on
the call's result or behaviour, and once the cached login state is
non-null no remote identity check is performed for either value of the
parameter. -/
theorem C10_ignore_cache_no_effect (s : LoginState) (remote : Except Unit Bool)
    (b₁ b₂ : Bool) :
    is_logged_in s remote b₁ = is_logged_in s remote b₂ ∧
    (∀ v, s.isLoggedInCache = some v →
      (is_logged_in s remote b₁).remoteCheck = false) := by
  refine ⟨rfl, ?_⟩
  intro v hv
  cases h : s.hasClient with
  | false => simp [is_logged_in, h]
  | true => simp [is_logged_in, h, hv]

/-- Witness for C10 at a cached logged-in state. -/
theorem C10_ignore_cache_no_effect_witness :
    is_logged_in ⟨true, some true⟩ (.ok true) true =
      is_logged_in ⟨true, some true⟩ (.ok true) false ∧
    (is_logged_in ⟨true, some true⟩ (.ok true) true).remoteCheck = false :=
  ⟨(C10_ignore_cache_no_effect ⟨true, some true⟩ (.ok true) true false).1,
   (C10_ignore_cache_no_effect ⟨true, some true⟩ (.ok true) true false).2 true rfl⟩

/-- C4: at most one reconnect runs at a time per session — with a
connect task in flight every caller waits on it (no new attempt, state
unchanged, so a batch of N concurrent calls starts zero further
attempts); with no task in flight, matching credentials make the call a
no-op with the state unchanged; otherwise a fresh connect starts, and a
batch beginning with such a call starts exactly one attempt in total. -/
theorem C4_locked_connect_single_flight (s : ConnectGuard) (auth csrf : String)
    (calls : List (String × String)) :
    (s.taskInFlight = true →
      locked_connect s auth csrf = (s, .waitExisting) ∧
      (locked_connect_calls s calls).2.all (fun a => a = .waitExisting) = true ∧
      countStarts (locked_connect_calls s calls).2 = 0) ∧
    (s.taskInFlight = false → s.authToken = some auth → s.csrfToken = some csrf →
      locked_connect s auth csrf = (s, .noop)) ∧
    (s.taskInFlight = false → ¬(s.authToken = some auth ∧ s.csrfToken = some csrf) →
      (locked_connect s auth csrf).2 = .startConnect ∧
      countStarts (locked_connect_calls s ((auth, csrf) :: calls)).2 = 1) := by
  refine ⟨?_, ?_, ?_⟩
  · intro h
    obtain ⟨hall, _⟩ := locked_connect_calls_inflight s h calls
    exact ⟨by simp [locked_connect, h], hall, countStarts_eq_zero_of_all_wait _ hall⟩
  · intro h ha hc
    simp [locked_connect, h, ha, hc]
  · intro h hne
    have hcred : (s.authToken = some auth && s.csrfToken = some csrf) = false := by
      rcases Bool.eq_false_or_eq_true (s.authToken = some auth && s.csrfToken = some csrf) with
        ht | hf
      · exact absurd (by simpa using ht) hne
      · exact hf
    have hstep : locked_connect s auth csrf =
        ({ s with taskInFlight := true }, .startConnect) := by
      simp only [locked_connect, h, Bool.false_eq_true, if_false]
      simp [hcred]
    constructor
    · rw [hstep]
    · have hflight : ({ s with taskInFlight := true } : ConnectGuard).taskInFlight = true := rfl
      obtain ⟨hall, _⟩ :=
        locked_connect_calls_inflight { s with taskInFlight := true } hflight calls
      simp only [locked_connect_calls, hstep]
      simpa [countStarts, List.filter] using countStarts_eq_zero_of_all_wait _ hall

/-- Witness for C4: one waiting batch during an in-flight connect, a
no-op on matching credentials, and a fresh batch starting one attempt. -/
theorem C4_locked_connect_single_flight_witness :
    (locked_connect ⟨true, some "a", some "c"⟩ "a" "c" =
      (⟨true, some "a", some "c"⟩, .waitExisting) ∧
     countStarts (locked_connect_calls ⟨true, some "a", some "c"⟩
       [("a", "c"), ("a", "c")]).2 = 0) ∧
    locked_connect ⟨false, some "a", some "c"⟩ "a" "c" =
      (⟨false, some "a", some "c"⟩, .noop) ∧
    countStarts (locked_connect_calls ⟨false, some "a", some "c"⟩
      [("a2", "c2"), ("a2", "c2"), ("a2", "c2")]).2 = 1 := by
  refine ⟨⟨?_, ?_⟩, ?_, ?_⟩
  · exact ((C4_locked_connect_single_flight ⟨true, some "a", some "c"⟩ "a" "c" []).1 rfl).1
  · exact ((C4_locked_connect_single_flight ⟨true, some "a", some "c"⟩ "a" "c"
      [("a", "c"), ("a", "c")]).1 rfl).2.2
  · exact (C4_locked_connect_single_flight ⟨false, some "a", some "c"⟩ "a" "c" []).2.1
      rfl rfl rfl
  · exact ((C4_locked_connect_single_flight ⟨false, some "a", some "c"⟩ "a2" "c2"
      [("a2", "c2"), ("a2", "c2")]).2.2 rfl (by simp)).2

/-- C7: a reaction event whose conversation has no Matrix room is dropped
silently — `handle_reaction` performs no action at all: no identity
resolution, no add/remove translation, and (being total) no error. -/
theorem C7_reaction_without_room_dropped (st : PortalStore) (evt : ReactionEntry)
    (h : st.hasRoom evt.conversation_id = false) :
    handle_reaction st evt = [] := by
  simp [handle_reaction, h]

/-- Witness for C7: a reaction-add in an unknown conversation. -/
theorem C7_reaction_without_room_dropped_witness :
    handle_reaction ⟨["other"]⟩ ⟨"conv1", 5, 9, "x", true⟩ = [] :=
  C7_reaction_without_room_dropped ⟨["other"]⟩ ⟨"conv1", 5, 9, "x", true⟩ (by decide)

/-- C5: polling-error handling (with bridge notices not globally
disabled): a fatal auth error yields exactly one `BAD_CREDENTIALS` push
followed by a non-suppressible (`TEXT`-msgtype) notice; a first transient
error (count = 1) yields a suppressible (`NOTICE`-msgtype) notice exactly
when the transient-disconnect-notices flag is set; every other transient
error yields only a health push — no notice — whose severity escalates
from `TRANSIENT_DISCONNECT` to `UNKNOWN_ERROR` once the count reaches the
threshold of 5. -/
theorem C5_on_error_branches (cfg : Config) (evt : PollingErrored)
    (hnot : cfg.disableBridgeNotices = false) :
    (evt.fatal = true → evt.isAuthError = true →
      on_error cfg evt =
        [.pushState ⟨.BAD_CREDENTIALS, some "twitter-auth-error", some evt.errorMessage⟩,
         .sendNotice ("Auth error while polling Twitter: " ++ evt.errorMessage) .text]) ∧
    (evt.fatal = false → evt.count = 1 →
      ((∃ b, Action.sendNotice b .notice ∈ on_error cfg evt) ↔
        cfg.temporaryDisconnectNotices = true)) ∧
    (evt.fatal = false → ¬(evt.count = 1 ∧ cfg.temporaryDisconnectNotices = true) →
      on_error cfg evt =
        [.pushState ⟨(if evt.count < 5 then .TRANSIENT_DISCONNECT else .UNKNOWN_ERROR),
          some ("Error while polling Twitter: " ++ evt.errorMessage), none⟩]) := by
  refine ⟨?_, ?_, ?_⟩
  · intro hf ha
    simp [on_error, hf, ha, send_bridge_notice, hnot]
  · intro hf hc
    cases ht : cfg.temporaryDisconnectNotices with
    | true =>
      refine ⟨fun _ => rfl, fun _ => ?_⟩
      refine ⟨"Error while polling Twitter: " ++ evt.errorMessage
        ++ "\nThe bridge will keep retrying.", ?_⟩
      simp [on_error, hf, hc, ht, send_bridge_notice, hnot]
    | false =>
      simp only [on_error, hf, Bool.false_eq_true, if_false, ht, Bool.and_false,
        if_false, decide_eq_true_eq]
      constructor
      · rintro ⟨b, hb⟩
        simp at hb
      · intro h
        exact absurd h (by simp)
  · intro hf hne
    have hcond : (decide (evt.count = 1) && cfg.temporaryDisconnectNotices) = false := by
      rcases Bool.eq_false_or_eq_true
          (decide (evt.count = 1) && cfg.temporaryDisconnectNotices) with ht | hfa
      · exact absurd (by simpa using ht) hne
      · exact hfa
    simp [on_error, hf, hcond]

/-- Witness for C5: the fatal-auth, first-transient (both flag values)
and escalated branches at concrete events. -/
theorem C5_on_error_branches_witness :
    on_error ⟨false, true⟩ ⟨true, true, 0, "e"⟩ =
      [.pushState ⟨.BAD_CREDENTIALS, some "twitter-auth-error", some "e"⟩,
       .sendNotice ("Auth error while polling Twitter: " ++ "e") .text] ∧
    ((∃ b, Action.sendNotice b .notice ∈ on_error ⟨false, true⟩ ⟨false, false, 1, "e"⟩) ↔
      True) ∧
    ((∃ b, Action.sendNotice b .notice ∈ on_error ⟨false, false⟩ ⟨false, false, 1, "e"⟩) ↔
      False) ∧
    on_error ⟨false, false⟩ ⟨false, false, 7, "e"⟩ =
      [.pushState ⟨.UNKNOWN_ERROR, some ("Error while polling Twitter: " ++ "e"), none⟩] := by
  refine ⟨?_, ?_, ?_, ?_⟩
  · exact (C5_on_error_branches ⟨false, true⟩ ⟨true, true, 0, "e"⟩ rfl).1 rfl rfl
  · rw [(C5_on_error_branches ⟨false, true⟩ ⟨false, false, 1, "e"⟩ rfl).2.1 rfl rfl]
    simp
  · rw [(C5_on_error_branches ⟨false, false⟩ ⟨false, false, 1, "e"⟩ rfl).2.1 rfl rfl]
    simp
  · have h := (C5_on_error_branches ⟨false, false⟩ ⟨false, false, 7, "e"⟩ rfl).2.2 rfl
      (by simp)
    simpa using h

/-- C2: initial sync with limit 2 over five conversations whose three
highest-ranked are trusted creates rooms for exactly the two
highest-ranked trusted conversations, still resolves every conversation's
portal-cache entry, and creates no room for the top-ranked conversation
once it is made untrusted. -/
theorem C2_initial_sync_limit :
    (createdRooms (sync ⟨[]⟩ 2 []
        [⟨"c1", 50, true⟩, ⟨"c2", 40, true⟩, ⟨"c3", 30, true⟩,
         ⟨"c4", 20, false⟩, ⟨"c5", 10, false⟩]).2 = ["c1", "c2"] ∧
      ([⟨"c1", 50, true⟩, ⟨"c2", 40, true⟩, (⟨"c3", 30, true⟩ : Conversation),
        ⟨"c4", 20, false⟩, ⟨"c5", 10, false⟩].all (fun c =>
          (sync ⟨[]⟩ 2 []
            [⟨"c1", 50, true⟩, ⟨"c2", 40, true⟩, ⟨"c3", 30, true⟩,
             ⟨"c4", 20, false⟩, ⟨"c5", 10, false⟩]).2.contains
            (.resolvePortal c.conversation_id)) = true)) ∧
    (createdRooms (sync ⟨[]⟩ 2 []
        [⟨"c1", 50, false⟩, ⟨"c2", 40, true⟩, ⟨"c3", 30, true⟩,
         ⟨"c4", 20, false⟩, ⟨"c5", 10, false⟩]).2 = ["c2", "c3"] ∧
      (sync ⟨[]⟩ 2 []
        [⟨"c1", 50, false⟩, ⟨"c2", 40, true⟩, ⟨"c3", 30, true⟩,
         ⟨"c4", 20, false⟩, ⟨"c5", 10, false⟩]).2.contains (.createRoom "c1") = false) := by
  decide

/-- C8: a trusted top-ranked conversation whose room already exists still
consumes one unit of the creation budget (limit 2, three trusted
conversations, top one already has a room): only one new room is created
and the lowest-ranked trusted conversation is not promoted into the
budget. -/
theorem C8_existing_room_consumes_budget :
    createdRooms (sync ⟨["a"]⟩ 2 []
        [⟨"a", 30, true⟩, ⟨"b", 20, true⟩, ⟨"c", 10, true⟩]).2 = ["b"] ∧
    (sync ⟨["a"]⟩ 2 []
        [⟨"a", 30, true⟩, ⟨"b", 20, true⟩, ⟨"c", 10, true⟩]).2.contains
      (.updateInfo "a") = true ∧
    (sync ⟨["a"]⟩ 2 []
        [⟨"a", 30, true⟩, ⟨"b", 20, true⟩, ⟨"c", 10, true⟩]).2.contains
      (.createRoom "c") = false ∧
    (createdRooms (sync ⟨["a"]⟩ 2 []
        [⟨"a", 30, true⟩, ⟨"b", 20, true⟩, ⟨"c", 10, true⟩]).2).length < 2 := by
  decide

/-- Replacing every record of a given mxid preserves lookup by that mxid,
returning the replacement, provided a record with that mxid exists. -/
theorem find?_map_replace (l : List UserRecord) (mxid : String) (u' : UserRecord)
    (h : (l.find? (fun r => r.mxid = mxid)).isSome = true) (hm : u'.mxid = mxid) :
    (l.map (fun r => if r.mxid = mxid then u' else r)).find?
      (fun r => r.mxid = mxid) = some u' := by
  induction l with
  | nil => simp at h
  | cons a as ih =>
    by_cases ha : a.mxid = mxid
    · rw [List.map_cons, if_pos ha, List.find?_cons_of_pos _ (by simpa using hm)]
    · rw [List.find?_cons_of_neg _ (by simpa using ha)] at h
      rw [List.map_cons, if_neg ha, List.find?_cons_of_neg _ (by simpa using ha)]
      exact ih h

/-- After replacing the records of a given mxid by one whose twid is
unset, no record in the table carries a twid that — by uniqueness —
belonged only to that mxid. -/
theorem find?_twid_none_after_replace (db : List UserRecord) (mxid : String)
    (t : Nat) (cleared : UserRecord) (hc : cleared.twid = none)
    (huniq : ∀ r ∈ db, r.twid = some t → r.mxid = mxid) :
    (db.map (fun r => if r.mxid = mxid then cleared else r)).find?
      (fun r => r.twid = some t) = none := by
  rw [List.find?_eq_none]
  intro x hx
  rw [List.mem_map] at hx
  obtain ⟨r, hr, hrx⟩ := hx
  by_cases h : r.mxid = mxid
  · rw [if_pos h] at hrx
    subst hrx
    simp [hc]
  · rw [if_neg h] at hrx
    subst hrx
    simp only [decide_eq_true_eq]
    intro habs
    exact h (huniq r hr habs)

/-- C6: after `logout` on a logged-in account (remote id `t`, assuming
remote ids are unique across the table), the account's record has twid,
auth token, csrf token and poll cursor all unset, the `by_twid` cache no
longer has an entry for `t`, and `get_by_twid t` returns absent. -/
theorem C6_logout_clears_identity (st : UserStore) (mxid : String)
    (u : UserRecord) (t : Nat)
    (hu : st.db.find? (fun r => r.mxid = mxid) = some u)
    (ht : u.twid = some t)
    (huniq : ∀ r ∈ st.db, r.twid = some t → r.mxid = mxid) :
    (∃ u', (logout st mxid).db.find? (fun r => r.mxid = mxid) = some u' ∧
      u'.twid = none ∧ u'.auth_token = none ∧ u'.csrf_token = none ∧
      u'.poll_cursor = none) ∧
    (logout st mxid).by_twid.find? (fun p => p.1 = t) = none ∧
    (get_by_twid (logout st mxid) t).1 = none := by
  have hmx : u.mxid = mxid := by
    have := List.find?_some hu
    simpa using this
  have hcache : (logout st mxid).by_twid.find? (fun p => p.1 = t) = none := by
    simp only [logout, hu, ht]
    rw [List.find?_eq_none]
    intro p hp
    rw [List.mem_filter] at hp
    simpa using hp.2
  have hdbfind : (logout st mxid).db.find? (fun r => r.mxid = mxid) =
      some ⟨u.mxid, none, none, none, none, u.notice_room⟩ := by
    simp only [logout, hu, ht]
    exact find?_map_replace st.db mxid _ (by rw [hu]; rfl) hmx
  have hnotwid : (logout st mxid).db.find? (fun r => r.twid = some t) = none := by
    simp only [logout, hu, ht]
    exact find?_twid_none_after_replace st.db mxid t _ rfl huniq
  refine ⟨⟨⟨u.mxid, none, none, none, none, u.notice_room⟩, hdbfind,
    rfl, rfl, rfl, rfl⟩, hcache, ?_⟩
  simp only [get_by_twid, hcache, hnotwid]

/-- Witness for C6 on a one-account store. -/
theorem C6_logout_clears_identity_witness :
    (∃ u', (logout ⟨[(7, "@u")],
        [⟨"@u", some 7, some "at", some "ct", some "pc", none⟩]⟩ "@u").db.find?
        (fun r => r.mxid = "@u") = some u' ∧
      u'.twid = none ∧ u'.auth_token = none ∧ u'.csrf_token = none ∧
      u'.poll_cursor = none) ∧
    (logout ⟨[(7, "@u")],
      [⟨"@u", some 7, some "at", some "ct", some "pc", none⟩]⟩ "@u").by_twid.find?
      (fun p => p.1 = 7) = none ∧
    (get_by_twid (logout ⟨[(7, "@u")],
      [⟨"@u", some 7, some "at", some "ct", some "pc", none⟩]⟩ "@u") 7).1 = none :=
  C6_logout_clears_identity
    ⟨[(7, "@u")], [⟨"@u", some 7, some "at", some "ct", some "pc", none⟩]⟩
    "@u" ⟨"@u", some 7, some "at", some "ct", some "pc", none⟩ 7
    (by decide) rfl (by decide)

end TwitterBridge
